import Mathlib

/-!
Verification development for the QSL card generator
(`src/qsl_card_generator.py`).

The program keeps a Card Record — a flat mapping from field name to
string value — and renders it into a fixed LaTeX document.  We embed the
record as an association list, field access as `get_field_value`
(mirroring `QSLCardGenerator.get_field_value`, which returns the empty
string for an absent field), and the renderer `generate_latex_code` as a
pure function producing the document string by splicing field values
into the fixed template text of lines 576-688 of the source.
-/

/-- A Card Record: a flat mapping from field name to string value,
embedded as an association list.  A name that carries no binding is an
absent (unset) field. -/
abbrev CardRecord := List (String × String)

/-- Field access, from `get_field_value` (src lines 510-523): a missing
field reads as the empty string (`self.data.get(field_name, "")`). -/
def get_field_value (r : CardRecord) (field_name : String) : String :=
  (List.lookup field_name r).getD ""

/-- Python's `value or default` on strings (src lines 559-565): the empty
string is the only falsy string, so the default is substituted exactly
when the value is empty. -/
def orDefault (v d : String) : String :=
  if v = "" then d else v

/-- Line 568: `home_check = "$\boxtimes$" if qth_type == "home" else "$\square$"`. -/
def home_check (qth_type : String) : String :=
  if qth_type = "home" then "$\\boxtimes$" else "$\\square$"

/-- Line 569: checked exactly when the stored QTH type equals `"portable"`. -/
def portable_check (qth_type : String) : String :=
  if qth_type = "portable" then "$\\boxtimes$" else "$\\square$"

/-- Line 570: checked exactly when the stored QSL type equals `"qso"`. -/
def qso_check (qsl_type : String) : String :=
  if qsl_type = "qso" then "$\\boxtimes$" else "$\\square$"

/-- Line 571: checked exactly when the stored QSL type equals `"swl"`. -/
def swl_check (qsl_type : String) : String :=
  if qsl_type = "swl" then "$\\boxtimes$" else "$\\square$"

/-- Line 572: checked exactly when the stored QSL request equals `"pse"`. -/
def pse_check (qsl_request : String) : String :=
  if qsl_request = "pse" then "$\\boxtimes$" else "$\\square$"

/-- Line 573: checked exactly when the stored QSL request equals `"tnx"`. -/
def tnx_check (qsl_request : String) : String :=
  if qsl_request = "tnx" then "$\\boxtimes$" else "$\\square$"

/-! Fixed text segments of the LaTeX template (the f-string of src lines
576-688), in document order.  Literal braces are written `\x7b`/`\x7d`.
The segments are cut at every interpolation point of the f-string. -/

def seg00 : String := "% QSL Card design by Ian Renton M0TRT. Public domain. Based on an example by Fabian Kurz, DJ5CW.\n\n\\documentclass[10pt]\x7barticle\x7d\n\\pagestyle\x7bempty\x7d\n\\usepackage\x7barray\x7d\n\\usepackage[T1]\x7bfontenc\x7d\n\\usepackage\x7btgschola\x7d\n\\usepackage\x7bamsmath\x7d\n\\usepackage\x7bamssymb\x7d\n\\usepackage\x7blatexsym\x7d\n\\usepackage\x7bgraphicx\x7d\n\\usepackage[export]\x7badjustbox\x7d\n\\usepackage\x7beso-pic\x7d\n\\usepackage\x7bxcolor\x7d\n\\usepackage\x7banyfontsize\x7d\n\\usepackage[outline]\x7bcontour\x7d\n\\usepackage[papersize=\x7b14cm,9cm\x7d, margin=0.5cm, marginratio=1:1]\x7bgeometry\x7d\n\\setlength\x7b\\parindent\x7d\x7b0pt\x7d\n\\setlength\x7b\\parskip\x7d\x7b0pt\x7d\n\\AddToShipoutPictureBG\x7b\n    \\ifodd\\value\x7bpage\x7d\n      \\AtPageCenter\x7b\n        \\includegraphics[width=\\paperwidth,height=\\paperheight,valign=M,center=-0.55em"

def segBG1 : String := "]\x7b"

def segBG2 : String := "\x7d%"

def seg01 : String := "\n        \x7d\n    \\fi\n\x7d\n\n\\begin\x7bdocument\x7d\n\\vspace\x7b0.5cm\x7d\n\\begin\x7bcenter\x7d\n\\fontfamily\x7bphv\x7d\\selectfont \\fontsize\x7b60\x7d\x7b72\x7d\\selectfont \\textcolor\x7bwhite\x7d\x7b\\contour\x7bblack\x7d\x7b\\textbf\x7b"

def seg02 : String := "\x7d\x7d\x7d\n\\end\x7bcenter\x7d\n\\vspace\x7b4.5cm\x7d\n\\hfill\n\\begin\x7bminipage\x7d\x7b0.5\\textwidth\x7d\n\\begin\x7bcenter\x7d\n\x7b\\huge \x7b\\fontfamily\x7bphv\x7d\\selectfont \\textcolor\x7bwhite\x7d\x7b\\contour\x7bblack\x7d\x7b\\textbf\x7b"

def seg03 : String := "\x7d\x7d\x7d\x7d\x7d\n\n\\vspace\x7b6pt\x7d\n\x7b\\Large \x7b\\fontfamily\x7bphv\x7d\\selectfont \\textcolor\x7bwhite\x7d\x7b\\contour\x7bblack\x7d\x7b\\textbf\x7b"

def segComma : String := ", "

def seg05 : String := "\x7d\x7d\x7d\x7d\x7d\n\\end\x7bcenter\x7d\n\\end\x7bminipage\x7d\n\\newpage\n\\begin\x7bminipage\x7d\x7b0.6\\textwidth\x7d\n\x7b\\Large \\textbf\x7b"

def seg06 : String := "\x7d\x7d \\quad \x7b\\textbf\x7b"

def seg07 : String := "\x7d\x7d\n\n\x7b\\small "

def seg10 : String := "\x7d\n\n\x7b\\small Grid: "

def seg11 : String := " \\quad CQ: "

def seg12 : String := " \\quad ITU: "

def seg13 : String := "\x7d\n\n\x7b\\small "

def seg14 : String := " \\quad "

def seg15 : String := "\x7d\n\n\\end\x7bminipage\x7d\n\\hfill\n\\begin\x7bminipage\x7d\x7b0.35\\textwidth\x7d\n\\begin\x7btabular\x7d\x7b | m\x7b11.7em\x7d | \x7d\n\\hline\n\x7b\\scriptsize VIA \\vphantom\x7b$\\int\\limits_\x7b\\dfrac aa\x7d$\x7d "

def seg16 : String := "\x7d\\\\\n\\hline\n\x7b\\scriptsize TO STATION \\vphantom\x7b$\\int\\limits_\x7b\\dfrac aa\x7d$\x7d "

def seg17 : String := "\x7d\\\\\n\\hline\n\\end\x7btabular\x7d\n\\end\x7bminipage\x7d\n\n\\smallskip\n\n\\begin\x7bcenter\x7d\n\\begin\x7btabular\x7d\x7b|w\x7bc\x7d\x7b5em\x7d|w\x7bc\x7d\x7b6.5em\x7d|w\x7bc\x7d\x7b6em\x7d|w\x7bc\x7d\x7b4em\x7d|w\x7bc\x7d\x7b4em\x7d|w\x7bc\x7d\x7b4em\x7d|\x7d\n\\hline\n\x7b\\footnotesize Your Call\x7d&\x7b\\footnotesize Date (D/M/Y)\x7d&\x7b\\footnotesize Time (UTC)\x7d&\x7b\\footnotesize Band\x7d&\x7b\\footnotesize Mode\x7d&\x7b\\footnotesize Report\x7d\\\\\n\\hline\n\\vphantom\x7b$\\dfrac b b$\x7d "

def segAmp : String := " & "

def seg23 : String := " \\\\\n\\hline\n\\end\x7btabular\x7d\n\n\\bigskip\n\n\\begin\x7btabular\x7d\x7b|w\x7bc\x7d\x7b4em\x7d|w\x7bc\x7d\x7b20em\x7d|w\x7bc\x7d\x7b4em\x7d|w\x7bc\x7d\x7b3.9em\x7d|\x7d\n\\hline\n\x7b\\footnotesize My QTH\x7d & \\multicolumn\x7b3\x7d\x7bl|\x7d\x7b\x7b\\footnotesize \\vphantom\x7b$\\dfrac b b$\x7d "

def seg24 : String := " Home \\enspace "

def seg25 : String := " Portable: "

def seg26 : String := "\x7d\x7d \\\\\n\\hline\n\x7b\\footnotesize Transceiver\x7d & \x7b\\footnotesize \\vphantom\x7b$\\dfrac b b$\x7d "

def seg27 : String := "\x7d & \x7b\\footnotesize Power\x7d & \x7b\\footnotesize \\vphantom\x7b$\\dfrac b b$\x7d "

def segW : String := " W"

def seg28 : String := "\x7d \\\\\n\\hline\n\x7b\\footnotesize Antenna\x7d & \x7b\\footnotesize \\vphantom\x7b$\\dfrac b b$\x7d "

def seg29 : String := "\x7d & \x7b\\footnotesize Via Sat.\x7d & \x7b\\footnotesize \\vphantom\x7b$\\dfrac b b$\x7d "

def seg30 : String := "\x7d \\\\\n\\hline\n\\end\x7btabular\x7d\n\\end\x7bcenter\x7d\n\\vspace\x7b3pt\x7d\n\\begin\x7bminipage\x7d\x7b0.65\\textwidth\x7d\n\x7b\\footnotesize Thanking you for: \\quad "

def seg31 : String := " our QSO \\quad "

def seg32 : String := " your SWL report\x7d\n\\end\x7bminipage\x7d\n\\hfill\n\\begin\x7bminipage\x7d\x7b0.3\\textwidth\x7d\n\x7b\\footnotesize QSL \\quad \\quad "

def seg33 : String := " PSE \\quad "

def seg34 : String := " TNX\x7d\n\\end\x7bminipage\x7d\n\n\\begin\x7bminipage\x7d\x7b0.65\\textwidth\x7d\n\\vspace\x7b2em\x7d\n"

def segIG : String := "\\includegraphics[width="

def segTW : String := "\\textwidth,valign=m]\x7b"

def segCB : String := "\x7d\n"

def seg35 : String := "\\end\x7bminipage\x7d\n\\hfill\n\\begin\x7bminipage\x7d\x7b0.3\\textwidth\x7d\n\\vspace\x7b0.5em\x7d\n\x7b\\footnotesize VY 73,\x7d\n\n\\vspace\x7b1.5em\x7d\n\\makebox\x7b\\rule[-0.5em]\x7b11em\x7d\x7b0.4pt\x7d\x7d\n\\end\x7bminipage\x7d\n\n\\end\x7bdocument\x7d\n"

/-- The renderer `generate_latex_code` (src lines 525-689): reads every
field through `get_field_value`, applies the `or`-defaults to the seven
image/scale fields (lines 559-565), derives the six checkbox markers
(lines 568-573), and splices the values into the fixed template text in
document order. -/
def generate_latex_code (r : CardRecord) : String :=
  let callsign := get_field_value r "callsign"
  let operator_name := get_field_value r "operator_name"
  let qth_city := get_field_value r "qth_city"
  let qth_state := get_field_value r "qth_state"
  let country := get_field_value r "country"
  let grid := get_field_value r "grid"
  let cq_zone := get_field_value r "cq_zone"
  let itu_zone := get_field_value r "itu_zone"
  let email := get_field_value r "email"
  let qrz_url := get_field_value r "qrz_url"
  let via := get_field_value r "via"
  let to_station := get_field_value r "to_station"
  let their_call := get_field_value r "their_call"
  let date := get_field_value r "date"
  let time := get_field_value r "time"
  let band := get_field_value r "band"
  let mode := get_field_value r "mode"
  let report := get_field_value r "report"
  let qth_type := get_field_value r "qth_type"
  let portable_location := get_field_value r "portable_location"
  let qsl_type := get_field_value r "qsl_type"
  let qsl_request := get_field_value r "qsl_request"
  let transceiver := get_field_value r "transceiver"
  let power := get_field_value r "power"
  let antenna := get_field_value r "antenna"
  let satellite := get_field_value r "satellite"
  let background_image := orDefault (get_field_value r "background_image") "foto_antenas.jpg"
  let logo1 := orDefault (get_field_value r "logo1") "logo_ure_negro.png"
  let logo1_scale := orDefault (get_field_value r "logo1_scale") "0.07"
  let logo2 := orDefault (get_field_value r "logo2") "qrz_com.png"
  let logo2_scale := orDefault (get_field_value r "logo2_scale") "0.2"
  let logo3 := orDefault (get_field_value r "logo3") "lotw.png"
  let logo3_scale := orDefault (get_field_value r "logo3_scale") "0.1"
  seg00 ++ segBG1 ++ background_image ++ segBG2 ++
  seg01 ++ callsign ++
  seg02 ++ operator_name ++
  seg03 ++ qth_city ++ segComma ++ country ++
  seg05 ++ callsign ++ seg06 ++ operator_name ++
  seg07 ++ qth_city ++ segComma ++ qth_state ++ segComma ++ country ++
  seg10 ++ grid ++ seg11 ++ cq_zone ++ seg12 ++ itu_zone ++
  seg13 ++ email ++ seg14 ++ qrz_url ++
  seg15 ++ via ++
  seg16 ++ to_station ++
  seg17 ++ their_call ++ segAmp ++ date ++ segAmp ++ time ++ segAmp ++ band ++ segAmp ++ mode ++ segAmp ++ report ++
  seg23 ++ home_check qth_type ++ seg24 ++ portable_check qth_type ++ seg25 ++ portable_location ++
  seg26 ++ transceiver ++ seg27 ++ power ++ segW ++
  seg28 ++ antenna ++ seg29 ++ satellite ++
  seg30 ++ qso_check qsl_type ++ seg31 ++ swl_check qsl_type ++
  seg32 ++ pse_check qsl_request ++ seg33 ++ tnx_check qsl_request ++
  seg34 ++ segIG ++ logo1_scale ++ segTW ++ logo1 ++ segCB ++
  segIG ++ logo2_scale ++ segTW ++ logo2 ++ segCB ++
  segIG ++ logo3_scale ++ segTW ++ logo3 ++ segCB ++
  seg35

/-- `s` occurs (as a contiguous substring) in `t`. -/
def occursIn (s t : String) : Prop :=
  ∃ a b : String, t = a ++ (s ++ b)

/-! ## Settings persistence (`save_settings` / `load_settings`) -/

/-- The allow-list of fields written by `save_settings` (src lines
432-436): identity, equipment and image/logo fields, in source order. -/
def save_fields : List String :=
  ["callsign", "operator_name", "qth_city", "qth_state", "country",
   "grid", "cq_zone", "itu_zone", "email", "qrz_url",
   "transceiver", "power", "antenna", "satellite",
   "background_image", "logo1", "logo2", "logo3",
   "logo1_scale", "logo2_scale", "logo3_scale"]

/-- Every field name for which the GUI creates a widget (the keys of
`self.fields`, src lines 119-319): station, equipment and image fields,
then the contact-tab fields and the three radio-button variables. -/
def known_fields : List String :=
  ["callsign", "operator_name", "qth_city", "qth_state", "country",
   "grid", "cq_zone", "itu_zone", "email", "qrz_url",
   "transceiver", "power", "antenna", "satellite",
   "background_image", "logo1", "logo1_scale", "logo2", "logo2_scale",
   "logo3", "logo3_scale",
   "via", "to_station", "their_call", "date", "time", "band", "mode",
   "report", "qth_type", "portable_location", "qsl_type", "qsl_request"]

/-- The text-entry widgets: `known_fields` without the three
`tk.StringVar` radio-button fields (`qth_type`, `qsl_type`,
`qsl_request`).  The defaults branch of `load_settings` (src lines
483-487) writes only to these. -/
def entry_fields : List String :=
  ["callsign", "operator_name", "qth_city", "qth_state", "country",
   "grid", "cq_zone", "itu_zone", "email", "qrz_url",
   "transceiver", "power", "antenna", "satellite",
   "background_image", "logo1", "logo1_scale", "logo2", "logo2_scale",
   "logo3", "logo3_scale",
   "via", "to_station", "their_call", "date", "time", "band", "mode",
   "report", "portable_location"]

/-- The hard-coded built-in default set of `load_settings` (src lines
459-481), used when the settings file is absent. -/
def builtin_defaults : List (String × String) :=
  [("callsign", "EA7HQL"),
   ("operator_name", "Andrés Ortiz"),
   ("qth_city", "Torremolinos"),
   ("qth_state", "Málaga"),
   ("country", "SPAIN"),
   ("grid", "IM76SP"),
   ("cq_zone", "14"),
   ("itu_zone", "37"),
   ("email", "ea7hql@gmail.com"),
   ("qrz_url", "https://www.qrz.com"),
   ("transceiver", ""),
   ("power", ""),
   ("antenna", ""),
   ("satellite", ""),
   ("background_image", "foto_antenas.jpg"),
   ("logo1", "logo_ure_negro.png"),
   ("logo1_scale", "0.07"),
   ("logo2", "qrz_com.png"),
   ("logo2_scale", "0.2"),
   ("logo3", "lotw.png"),
   ("logo3_scale", "0.1")]

/-- Overwrite one field of the record: the assignment performed on a
widget by `field.delete(0, tk.END); field.insert(0, value)` or
`field.set(value)` (src lines 500-503).  The old binding is dropped and
the new one installed. -/
def setField (r : CardRecord) (k v : String) : CardRecord :=
  (k, v) :: r.filter (fun p => !(p.1 == k))

/-- `field.insert(0, value)` without a preceding delete (src line 487):
the value is prepended to whatever the field already holds. -/
def insert0 (r : CardRecord) (k v : String) : CardRecord :=
  setField r k (v ++ get_field_value r k)

/-- `export_defaults`: the mapping built by `save_settings` (src lines
429-444), restricted to the `save_fields` allow-list; each allow-listed
field is read from the record. -/
def export_defaults (r : CardRecord) : List (String × String) :=
  save_fields.map (fun f => (f, get_field_value r f))

/-- `import_defaults`: the loop of `load_settings` over a parsed
settings mapping (src lines 496-503): each entry whose key names a known
widget overwrites that field; all other fields are untouched. -/
def import_defaults (settings : List (String × String)) (r : CardRecord) : CardRecord :=
  settings.foldl (fun acc p => if p.1 ∈ known_fields then setField acc p.1 p.2 else acc) r

/-- The loop of the absent-file branch of `load_settings` (src lines
483-487) over an arbitrary defaults mapping: each entry naming an entry
widget (not a `StringVar`) is inserted at position 0. -/
def insert_fold (m : List (String × String)) (r : CardRecord) : CardRecord :=
  m.foldl (fun acc p => if p.1 ∈ entry_fields then insert0 acc p.1 p.2 else acc) r

/-- The absent-file branch of `load_settings` (src lines 457-490): the
built-in defaults are written into the form. -/
def load_settings_absent (r : CardRecord) : CardRecord :=
  insert_fold builtin_defaults r

/-! ## `generate_pdf` control flow (src lines 702-808)

A model of the scratch-directory lifecycle of `generate_pdf`, restricted
to the operations relevant to resource release.  The try block (lines
716-801) creates the temporary directory, stages the `.tex` file and the
image files, runs `pdflatex` with `timeout=30`, handles the artifact,
and only then calls `shutil.rmtree(temp_dir)` (line 801).  A
`subprocess.TimeoutExpired` raised by `subprocess.run` (line 756)
transfers control to the handler at line 803, which reports "PDF
generation timed out".  GUI dialogs and the artifact-save interaction
are elided; the success path is collapsed to its final state. -/

inductive PdfStep where
  | mkdtemp
  | write_tex
  | copy_images
  | run_pdflatex
  | handle_artifact
  | rmtree_tmp
deriving DecidableEq

/-- Outcome of `subprocess.run(['pdflatex', ...], timeout=30)`: either a
completed process or a raised `subprocess.TimeoutExpired`. -/
inductive RunOutcome where
  | completed
  | timedOut
deriving DecidableEq

/-- The try block of `generate_pdf`: the list of executed steps, and the
exception (if any) that aborted it.  When `subprocess.run` raises, the
steps after line 756 — including the `shutil.rmtree` of line 801 — do
not execute. -/
def generate_pdf_try (o : RunOutcome) : List PdfStep × Option String :=
  match o with
  | RunOutcome.timedOut =>
      ([PdfStep.mkdtemp, PdfStep.write_tex, PdfStep.copy_images, PdfStep.run_pdflatex],
       some "TimeoutExpired")
  | RunOutcome.completed =>
      ([PdfStep.mkdtemp, PdfStep.write_tex, PdfStep.copy_images, PdfStep.run_pdflatex,
        PdfStep.handle_artifact, PdfStep.rmtree_tmp],
       none)

/-- `generate_pdf` as observed from outside: the steps executed and the
final status message.  The `except subprocess.TimeoutExpired` handler
(src lines 803-805) reports the distinct status
"PDF generation timed out" and performs no cleanup. -/
def generate_pdf (o : RunOutcome) : List PdfStep × String :=
  match generate_pdf_try o with
  | (steps, some _) => (steps, "PDF generation timed out")
  | (steps, none) => (steps, "PDF saved")

/-! ## State-threaded renderer

The render path of the source only ever reads the form state (every
access in `generate_latex_code` goes through `get_field_value`).  To
state that as a frame property we thread the record explicitly through
every read and show it comes out unchanged. -/

/-- A field read as a state-passing operation: returns the value and the
(unchanged) record. -/
def get_field_value_st (r : CardRecord) (field_name : String) : String × CardRecord :=
  (get_field_value r field_name, r)

/-- `generate_latex_code` with the record threaded explicitly through
every field read, in the read order of src lines 528-565. -/
def generate_latex_code_st (r0 : CardRecord) : String × CardRecord :=
  let p01 := get_field_value_st r0 "callsign"
  let callsign := p01.1
  let p02 := get_field_value_st p01.2 "operator_name"
  let operator_name := p02.1
  let p03 := get_field_value_st p02.2 "qth_city"
  let qth_city := p03.1
  let p04 := get_field_value_st p03.2 "qth_state"
  let qth_state := p04.1
  let p05 := get_field_value_st p04.2 "country"
  let country := p05.1
  let p06 := get_field_value_st p05.2 "grid"
  let grid := p06.1
  let p07 := get_field_value_st p06.2 "cq_zone"
  let cq_zone := p07.1
  let p08 := get_field_value_st p07.2 "itu_zone"
  let itu_zone := p08.1
  let p09 := get_field_value_st p08.2 "email"
  let email := p09.1
  let p10 := get_field_value_st p09.2 "qrz_url"
  let qrz_url := p10.1
  let p11 := get_field_value_st p10.2 "via"
  let via := p11.1
  let p12 := get_field_value_st p11.2 "to_station"
  let to_station := p12.1
  let p13 := get_field_value_st p12.2 "their_call"
  let their_call := p13.1
  let p14 := get_field_value_st p13.2 "date"
  let date := p14.1
  let p15 := get_field_value_st p14.2 "time"
  let time := p15.1
  let p16 := get_field_value_st p15.2 "band"
  let band := p16.1
  let p17 := get_field_value_st p16.2 "mode"
  let mode := p17.1
  let p18 := get_field_value_st p17.2 "report"
  let report := p18.1
  let p19 := get_field_value_st p18.2 "qth_type"
  let qth_type := p19.1
  let p20 := get_field_value_st p19.2 "portable_location"
  let portable_location := p20.1
  let p21 := get_field_value_st p20.2 "qsl_type"
  let qsl_type := p21.1
  let p22 := get_field_value_st p21.2 "qsl_request"
  let qsl_request := p22.1
  let p23 := get_field_value_st p22.2 "transceiver"
  let transceiver := p23.1
  let p24 := get_field_value_st p23.2 "power"
  let power := p24.1
  let p25 := get_field_value_st p24.2 "antenna"
  let antenna := p25.1
  let p26 := get_field_value_st p25.2 "satellite"
  let satellite := p26.1
  let p27 := get_field_value_st p26.2 "background_image"
  let background_image := orDefault p27.1 "foto_antenas.jpg"
  let p28 := get_field_value_st p27.2 "logo1"
  let logo1 := orDefault p28.1 "logo_ure_negro.png"
  let p29 := get_field_value_st p28.2 "logo1_scale"
  let logo1_scale := orDefault p29.1 "0.07"
  let p30 := get_field_value_st p29.2 "logo2"
  let logo2 := orDefault p30.1 "qrz_com.png"
  let p31 := get_field_value_st p30.2 "logo2_scale"
  let logo2_scale := orDefault p31.1 "0.2"
  let p32 := get_field_value_st p31.2 "logo3"
  let logo3 := orDefault p32.1 "lotw.png"
  let p33 := get_field_value_st p32.2 "logo3_scale"
  let logo3_scale := orDefault p33.1 "0.1"
  (seg00 ++ segBG1 ++ background_image ++ segBG2 ++
   seg01 ++ callsign ++
   seg02 ++ operator_name ++
   seg03 ++ qth_city ++ segComma ++ country ++
   seg05 ++ callsign ++ seg06 ++ operator_name ++
   seg07 ++ qth_city ++ segComma ++ qth_state ++ segComma ++ country ++
   seg10 ++ grid ++ seg11 ++ cq_zone ++ seg12 ++ itu_zone ++
   seg13 ++ email ++ seg14 ++ qrz_url ++
   seg15 ++ via ++
   seg16 ++ to_station ++
   seg17 ++ their_call ++ segAmp ++ date ++ segAmp ++ time ++ segAmp ++ band ++ segAmp ++ mode ++ segAmp ++ report ++
   seg23 ++ home_check qth_type ++ seg24 ++ portable_check qth_type ++ seg25 ++ portable_location ++
   seg26 ++ transceiver ++ seg27 ++ power ++ segW ++
   seg28 ++ antenna ++ seg29 ++ satellite ++
   seg30 ++ qso_check qsl_type ++ seg31 ++ swl_check qsl_type ++
   seg32 ++ pse_check qsl_request ++ seg33 ++ tnx_check qsl_request ++
   seg34 ++ segIG ++ logo1_scale ++ segTW ++ logo1 ++ segCB ++
   segIG ++ logo2_scale ++ segTW ++ logo2 ++ segCB ++
   segIG ++ logo3_scale ++ segTW ++ logo3 ++ segCB ++
   seg35, p33.2)

/-! ## Association-list lemmas -/

/-- Removing the bindings of key `k` does not change the lookup of a
different key. -/
theorem lookup_filter_ne (r : CardRecord) (k f : String) (h : f ≠ k) :
    List.lookup f (r.filter fun p => !(p.1 == k)) = List.lookup f r := by
  induction r with
  | nil => rfl
  | cons a t ih =>
    obtain ⟨k1, v1⟩ := a
    by_cases hk : k1 = k
    · have hpa : (!(k1 == k)) = false := by simp [hk]
      have hfa : (f == k1) = false := by simp [hk, h]
      simp [List.filter_cons, hpa, List.lookup_cons, hfa, ih]
    · have hpa : (!(k1 == k)) = true := by simp [hk]
      by_cases hf : f = k1
      · subst hf
        simp [List.filter_cons, hpa, List.lookup_cons]
      · have hfa : (f == k1) = false := by simp [hf]
        simp [List.filter_cons, hpa, List.lookup_cons, hfa, ih]

/-- Overwriting a field updates exactly that key's binding. -/
theorem lookup_setField (r : CardRecord) (k v f : String) :
    List.lookup f (setField r k v) = if f = k then some v else List.lookup f r := by
  unfold setField
  by_cases h : f = k
  · subst h
    simp [List.lookup_cons]
  · have hfa : (f == k) = false := by simp [h]
    simp [List.lookup_cons, hfa, h, lookup_filter_ne r k f h]

/-- Overwriting one field leaves the reads of all other fields unchanged. -/
theorem get_setField_ne (r : CardRecord) (k v f : String) (h : f ≠ k) :
    get_field_value (setField r k v) f = get_field_value r f := by
  simp [get_field_value, lookup_setField, h]

/-- A key not among an association list's keys looks up to `none`. -/
theorem lookup_none_of_not_mem_keys (m : List (String × String)) (f : String)
    (h : f ∉ m.map Prod.fst) : List.lookup f m = none := by
  induction m with
  | nil => rfl
  | cons a t ih =>
    obtain ⟨k1, v1⟩ := a
    simp only [List.map_cons, List.mem_cons, not_or] at h
    have hfa : (f == k1) = false := by simp [h.1]
    simp [List.lookup_cons, hfa, ih h.2]

/-- Lookup in an association list built by tagging each key of a list
with a function of that key. -/
theorem lookup_map_self (keys : List String) (g : String → String) (f : String) :
    List.lookup f (keys.map fun k => (k, g k)) =
      if f ∈ keys then some (g f) else none := by
  induction keys with
  | nil => simp
  | cons k ks ih =>
    by_cases h : f = k
    · subst h
      simp [List.lookup_cons]
    · have hfa : (f == k) = false := by simp [h]
      simp [List.lookup_cons, hfa, ih, List.mem_cons, h]

/-- Lookup after an import: an imported key reads its imported value,
every other key reads from the original record.  The mapping's keys must
be distinct and name known widgets. -/
theorem lookup_import (m : List (String × String)) (r : CardRecord) (f : String)
    (hnd : (m.map Prod.fst).Nodup) (hks : ∀ p ∈ m, p.1 ∈ known_fields) :
    List.lookup f (import_defaults m r) =
      (List.lookup f m).or (List.lookup f r) := by
  induction m generalizing r with
  | nil => simp [import_defaults]
  | cons p ms ih =>
    obtain ⟨k, v⟩ := p
    simp only [List.map_cons, List.nodup_cons] at hnd
    have hkk : k ∈ known_fields := hks (k, v) (by simp)
    have step : import_defaults ((k, v) :: ms) r = import_defaults ms (setField r k v) := by
      simp [import_defaults, hkk]
    rw [step, ih _ hnd.2 (fun q hq => hks q (List.mem_cons_of_mem _ hq))]
    by_cases h : f = k
    · subst h
      have hnone : List.lookup f ms = none := lookup_none_of_not_mem_keys ms f hnd.1
      simp [hnone, lookup_setField, List.lookup_cons]
    · have hfa : (f == k) = false := by simp [h]
      simp [lookup_setField, h, List.lookup_cons, hfa]

/-- Lookup after the absent-file defaults pass: a defaulted key reads
its default prepended to the original content, every other key reads
from the original record.  The mapping's keys must be distinct and name
entry widgets. -/
theorem lookup_insert_fold (m : List (String × String)) (r : CardRecord) (f : String)
    (hnd : (m.map Prod.fst).Nodup) (hks : ∀ p ∈ m, p.1 ∈ entry_fields) :
    List.lookup f (insert_fold m r) =
      ((List.lookup f m).map (fun v => v ++ get_field_value r f)).or (List.lookup f r) := by
  induction m generalizing r with
  | nil => simp [insert_fold]
  | cons p ms ih =>
    obtain ⟨k, v⟩ := p
    simp only [List.map_cons, List.nodup_cons] at hnd
    have hkk : k ∈ entry_fields := hks (k, v) (by simp)
    have step : insert_fold ((k, v) :: ms) r = insert_fold ms (insert0 r k v) := by
      simp [insert_fold, hkk]
    rw [step, ih _ hnd.2 (fun q hq => hks q (List.mem_cons_of_mem _ hq))]
    by_cases h : f = k
    · subst h
      have hnone : List.lookup f ms = none := lookup_none_of_not_mem_keys ms f hnd.1
      simp [hnone, insert0, lookup_setField, List.lookup_cons]
    · have hfa : (f == k) = false := by simp [h]
      have hget : get_field_value (setField r k (v ++ get_field_value r k)) f =
          get_field_value r f := get_setField_ne r k _ f h
      simp [insert0, lookup_setField, h, List.lookup_cons, hfa, hget]

/-! ## Decomposition of the rendered document

Named contiguous pieces of `generate_latex_code`'s output, used to place
substrings of interest.  Values as they are spliced by the renderer. -/

def chainStart (r : CardRecord) : String :=
  seg00 ++ segBG1 ++ orDefault (get_field_value r "background_image") "foto_antenas.jpg" ++ segBG2

def chainIdent (r : CardRecord) : String :=
  seg01 ++ get_field_value r "callsign" ++
  seg02 ++ get_field_value r "operator_name" ++
  seg03 ++ get_field_value r "qth_city" ++ segComma ++ get_field_value r "country" ++
  seg05 ++ get_field_value r "callsign" ++ seg06 ++ get_field_value r "operator_name" ++
  seg07 ++ get_field_value r "qth_city" ++ segComma ++ get_field_value r "qth_state" ++
    segComma ++ get_field_value r "country" ++
  seg10 ++ get_field_value r "grid" ++ seg11 ++ get_field_value r "cq_zone" ++
    seg12 ++ get_field_value r "itu_zone" ++
  seg13 ++ get_field_value r "email" ++ seg14 ++ get_field_value r "qrz_url" ++
  seg15 ++ get_field_value r "via" ++
  seg16 ++ get_field_value r "to_station" ++ seg17

def midContact (r : CardRecord) : String :=
  get_field_value r "their_call" ++ segAmp ++ get_field_value r "date" ++ segAmp ++
  get_field_value r "time" ++ segAmp ++ get_field_value r "band" ++ segAmp ++
  get_field_value r "mode" ++ segAmp ++ get_field_value r "report"

def midQth (r : CardRecord) : String :=
  home_check (get_field_value r "qth_type") ++ seg24 ++
  portable_check (get_field_value r "qth_type")

def midTrx (r : CardRecord) : String :=
  seg25 ++ get_field_value r "portable_location" ++ seg26 ++ get_field_value r "transceiver"

def midPower (r : CardRecord) : String :=
  seg27 ++ get_field_value r "power" ++ segW

def postAnt (r : CardRecord) : String :=
  seg28 ++ get_field_value r "antenna" ++ seg29 ++ get_field_value r "satellite" ++ seg30

def midQso (r : CardRecord) : String :=
  qso_check (get_field_value r "qsl_type") ++ seg31 ++ swl_check (get_field_value r "qsl_type")

def midPse (r : CardRecord) : String :=
  pse_check (get_field_value r "qsl_request") ++ seg33 ++ tnx_check (get_field_value r "qsl_request")

def midLogos (r : CardRecord) : String :=
  segIG ++ orDefault (get_field_value r "logo1_scale") "0.07" ++ segTW ++
    orDefault (get_field_value r "logo1") "logo_ure_negro.png" ++ segCB ++
  segIG ++ orDefault (get_field_value r "logo2_scale") "0.2" ++ segTW ++
    orDefault (get_field_value r "logo2") "qrz_com.png" ++ segCB ++
  segIG ++ orDefault (get_field_value r "logo3_scale") "0.1" ++ segTW ++
    orDefault (get_field_value r "logo3") "lotw.png" ++ segCB

/-- The rendered document, regrouped into the named pieces. -/
theorem latex_decomp (r : CardRecord) :
    generate_latex_code r =
      chainStart r ++ (chainIdent r ++ (midContact r ++ (seg23 ++ (midQth r ++
        (midTrx r ++ (midPower r ++ (postAnt r ++ (midQso r ++ (seg32 ++
        (midPse r ++ (seg34 ++ (midLogos r ++ seg35)))))))))))) := by
  simp only [generate_latex_code, chainStart, chainIdent, midContact, midQth, midTrx,
    midPower, postAnt, midQso, midPse, midLogos, String.append_assoc]

/-! ## Checkbox marker facts -/

theorem square_ne_boxtimes : ("$\\square$" : String) ≠ "$\\boxtimes$" := by decide

/-- A marker built by the pattern of src lines 568-573 shows the checked
glyph exactly when the field equals that marker's own literal. -/
theorem check_eq_boxtimes_iff (v lit : String) :
    (if v = lit then "$\\boxtimes$" else "$\\square$") = "$\\boxtimes$" ↔ v = lit := by
  by_cases h : v = lit
  · simp [h]
  · simp [h, square_ne_boxtimes]

/-- When the field holds one of the pair's two (distinct) literals,
exactly one side is checked. -/
theorem pair_exactly_one (v litA litB : String) (hne : litA ≠ litB)
    (h : v = litA ∨ v = litB) :
    ((if v = litA then "$\\boxtimes$" else "$\\square$") = "$\\boxtimes$" ∧
     (if v = litB then "$\\boxtimes$" else "$\\square$") = "$\\square$")
  ∨ ((if v = litA then "$\\boxtimes$" else "$\\square$") = "$\\square$" ∧
     (if v = litB then "$\\boxtimes$" else "$\\square$") = "$\\boxtimes$") := by
  rcases h with h | h
  · left
    simp [h, hne]
  · right
    have hba : litB ≠ litA := fun hh => hne hh.symm
    simp [h, hba]

/-- When the field holds neither of the pair's literals, both sides are
unchecked. -/
theorem pair_none_checked (v litA litB : String) (hA : v ≠ litA) (hB : v ≠ litB) :
    (if v = litA then "$\\boxtimes$" else "$\\square$") = "$\\square$" ∧
    (if v = litB then "$\\boxtimes$" else "$\\square$") = "$\\square$" := by
  simp [hA, hB]

/-- C1 (counterexample): the claim says a choice-field value other than
the documented literal routes the check to the complementary marker
("exactly one checked marker per pair").  On a record whose `qth_type`
is the out-of-range string "anywhere", the code checks neither side:
both the Home and the Portable markers render as the unchecked glyph,
and the rendered output carries the two unchecked glyphs at the pair's
template position. -/
theorem checkbox_route_counterexample :
    home_check "anywhere" = "$\\square$"
  ∧ portable_check "anywhere" = "$\\square$"
  ∧ (("$\\square$" : String) == "$\\boxtimes$") = false
  ∧ occursIn ("$\\square$" ++ seg24 ++ "$\\square$")
      (generate_latex_code [("qth_type", "anywhere")]) := by
  refine ⟨by decide, by decide, by decide, ?_⟩
  have hq : get_field_value [("qth_type", "anywhere")] "qth_type" = "anywhere" := rfl
  have hmid : midQth [("qth_type", "anywhere")] = "$\\square$" ++ seg24 ++ "$\\square$" := by
    rw [midQth, hq]
    rw [show home_check "anywhere" = "$\\square$" from by decide]
    rw [show portable_check "anywhere" = "$\\square$" from by decide]
  refine ⟨chainStart [("qth_type", "anywhere")] ++ (chainIdent [("qth_type", "anywhere")] ++
    (midContact [("qth_type", "anywhere")] ++ seg23)),
    midTrx [("qth_type", "anywhere")] ++ (midPower [("qth_type", "anywhere")] ++
    (postAnt [("qth_type", "anywhere")] ++ (midQso [("qth_type", "anywhere")] ++
    (seg32 ++ (midPse [("qth_type", "anywhere")] ++ (seg34 ++
    (midLogos [("qth_type", "anywhere")] ++ seg35))))))), ?_⟩
  rw [latex_decomp, hmid]
  simp only [String.append_assoc]

/-- C1 (amended): the checked marker of each pair is decided only by
equality with that side's own literal ("home"/"portable", "qso"/"swl",
"pse"/"tnx").  When the choice field holds one of the pair's two
literals, exactly one marker of the pair is checked and the other is
unchecked; any other string leaves both markers of the pair unchecked
(it is not routed to the complementary marker).  The rendered output
carries each pair's two markers at its template position. -/
theorem checkbox_markers_amended (r : CardRecord) :
    (home_check (get_field_value r "qth_type") = "$\\boxtimes$" ↔
       get_field_value r "qth_type" = "home")
  ∧ (portable_check (get_field_value r "qth_type") = "$\\boxtimes$" ↔
       get_field_value r "qth_type" = "portable")
  ∧ (qso_check (get_field_value r "qsl_type") = "$\\boxtimes$" ↔
       get_field_value r "qsl_type" = "qso")
  ∧ (swl_check (get_field_value r "qsl_type") = "$\\boxtimes$" ↔
       get_field_value r "qsl_type" = "swl")
  ∧ (pse_check (get_field_value r "qsl_request") = "$\\boxtimes$" ↔
       get_field_value r "qsl_request" = "pse")
  ∧ (tnx_check (get_field_value r "qsl_request") = "$\\boxtimes$" ↔
       get_field_value r "qsl_request" = "tnx")
  ∧ (get_field_value r "qth_type" = "home" ∨ get_field_value r "qth_type" = "portable" →
       (home_check (get_field_value r "qth_type") = "$\\boxtimes$" ∧
        portable_check (get_field_value r "qth_type") = "$\\square$")
     ∨ (home_check (get_field_value r "qth_type") = "$\\square$" ∧
        portable_check (get_field_value r "qth_type") = "$\\boxtimes$"))
  ∧ (get_field_value r "qsl_type" = "qso" ∨ get_field_value r "qsl_type" = "swl" →
       (qso_check (get_field_value r "qsl_type") = "$\\boxtimes$" ∧
        swl_check (get_field_value r "qsl_type") = "$\\square$")
     ∨ (qso_check (get_field_value r "qsl_type") = "$\\square$" ∧
        swl_check (get_field_value r "qsl_type") = "$\\boxtimes$"))
  ∧ (get_field_value r "qsl_request" = "pse" ∨ get_field_value r "qsl_request" = "tnx" →
       (pse_check (get_field_value r "qsl_request") = "$\\boxtimes$" ∧
        tnx_check (get_field_value r "qsl_request") = "$\\square$")
     ∨ (pse_check (get_field_value r "qsl_request") = "$\\square$" ∧
        tnx_check (get_field_value r "qsl_request") = "$\\boxtimes$"))
  ∧ (get_field_value r "qth_type" ≠ "home" → get_field_value r "qth_type" ≠ "portable" →
       home_check (get_field_value r "qth_type") = "$\\square$" ∧
       portable_check (get_field_value r "qth_type") = "$\\square$")
  ∧ (get_field_value r "qsl_type" ≠ "qso" → get_field_value r "qsl_type" ≠ "swl" →
       qso_check (get_field_value r "qsl_type") = "$\\square$" ∧
       swl_check (get_field_value r "qsl_type") = "$\\square$")
  ∧ (get_field_value r "qsl_request" ≠ "pse" → get_field_value r "qsl_request" ≠ "tnx" →
       pse_check (get_field_value r "qsl_request") = "$\\square$" ∧
       tnx_check (get_field_value r "qsl_request") = "$\\square$")
  ∧ occursIn (home_check (get_field_value r "qth_type") ++ seg24 ++
       portable_check (get_field_value r "qth_type")) (generate_latex_code r)
  ∧ occursIn (qso_check (get_field_value r "qsl_type") ++ seg31 ++
       swl_check (get_field_value r "qsl_type")) (generate_latex_code r)
  ∧ occursIn (pse_check (get_field_value r "qsl_request") ++ seg33 ++
       tnx_check (get_field_value r "qsl_request")) (generate_latex_code r) := by
  refine ⟨check_eq_boxtimes_iff _ "home", check_eq_boxtimes_iff _ "portable",
    check_eq_boxtimes_iff _ "qso", check_eq_boxtimes_iff _ "swl",
    check_eq_boxtimes_iff _ "pse", check_eq_boxtimes_iff _ "tnx",
    pair_exactly_one _ "home" "portable" (by decide),
    pair_exactly_one _ "qso" "swl" (by decide),
    pair_exactly_one _ "pse" "tnx" (by decide),
    pair_none_checked _ "home" "portable",
    pair_none_checked _ "qso" "swl",
    pair_none_checked _ "pse" "tnx", ?_, ?_, ?_⟩
  · refine ⟨chainStart r ++ (chainIdent r ++ (midContact r ++ seg23)),
      midTrx r ++ (midPower r ++ (postAnt r ++ (midQso r ++ (seg32 ++
      (midPse r ++ (seg34 ++ (midLogos r ++ seg35))))))), ?_⟩
    rw [latex_decomp]
    simp only [midQth, String.append_assoc]
  · refine ⟨chainStart r ++ (chainIdent r ++ (midContact r ++ (seg23 ++ (midQth r ++
      (midTrx r ++ (midPower r ++ postAnt r)))))),
      seg32 ++ (midPse r ++ (seg34 ++ (midLogos r ++ seg35))), ?_⟩
    rw [latex_decomp]
    simp only [midQso, String.append_assoc]
  · refine ⟨chainStart r ++ (chainIdent r ++ (midContact r ++ (seg23 ++ (midQth r ++
      (midTrx r ++ (midPower r ++ (postAnt r ++ (midQso r ++ seg32)))))))),
      seg34 ++ (midLogos r ++ seg35), ?_⟩
    rw [latex_decomp]
    simp only [midPse, String.append_assoc]

/-- C1 (witness for the amended theorem): on a record whose choice
fields hold "home", "swl" and the out-of-range "anywhere", the amended
theorem yields concrete marker values. -/
theorem checkbox_markers_amended_witness :
    ((home_check (get_field_value [("qth_type", "home"), ("qsl_type", "swl"),
        ("qsl_request", "anywhere")] "qth_type") = "$\\boxtimes$" ∧
      portable_check (get_field_value [("qth_type", "home"), ("qsl_type", "swl"),
        ("qsl_request", "anywhere")] "qth_type") = "$\\square$")
   ∨ (home_check (get_field_value [("qth_type", "home"), ("qsl_type", "swl"),
        ("qsl_request", "anywhere")] "qth_type") = "$\\square$" ∧
      portable_check (get_field_value [("qth_type", "home"), ("qsl_type", "swl"),
        ("qsl_request", "anywhere")] "qth_type") = "$\\boxtimes$"))
  ∧ (pse_check (get_field_value [("qth_type", "home"), ("qsl_type", "swl"),
       ("qsl_request", "anywhere")] "qsl_request") = "$\\square$" ∧
     tnx_check (get_field_value [("qth_type", "home"), ("qsl_type", "swl"),
       ("qsl_request", "anywhere")] "qsl_request") = "$\\square$") :=
  ⟨(checkbox_markers_amended [("qth_type", "home"), ("qsl_type", "swl"),
      ("qsl_request", "anywhere")]).2.2.2.2.2.2.1 (Or.inl (by decide)),
   (checkbox_markers_amended [("qth_type", "home"), ("qsl_type", "swl"),
      ("qsl_request", "anywhere")]).2.2.2.2.2.2.2.2.2.2.2.1 (by decide) (by decide)⟩

/-- C8: for each checkbox pair at most one side is checked — each side
shows the checked glyph only when the choice field equals that side's
own literal, and the two literals of a pair differ, so at least one side
of every pair renders the unchecked glyph. -/
theorem at_most_one_marker_checked (v : String) :
    (home_check v = "$\\square$" ∨ portable_check v = "$\\square$")
  ∧ (qso_check v = "$\\square$" ∨ swl_check v = "$\\square$")
  ∧ (pse_check v = "$\\square$" ∨ tnx_check v = "$\\square$")
  ∧ (home_check v = "$\\boxtimes$" ↔ v = "home")
  ∧ (portable_check v = "$\\boxtimes$" ↔ v = "portable")
  ∧ (qso_check v = "$\\boxtimes$" ↔ v = "qso")
  ∧ (swl_check v = "$\\boxtimes$" ↔ v = "swl")
  ∧ (pse_check v = "$\\boxtimes$" ↔ v = "pse")
  ∧ (tnx_check v = "$\\boxtimes$" ↔ v = "tnx")
  ∧ (("home" : String) == "portable") = false
  ∧ (("qso" : String) == "swl") = false
  ∧ (("pse" : String) == "tnx") = false := by
  refine ⟨?_, ?_, ?_, check_eq_boxtimes_iff _ "home", check_eq_boxtimes_iff _ "portable",
    check_eq_boxtimes_iff _ "qso", check_eq_boxtimes_iff _ "swl",
    check_eq_boxtimes_iff _ "pse", check_eq_boxtimes_iff _ "tnx",
    by decide, by decide, by decide⟩
  · by_cases h : v = "home"
    · right
      rw [portable_check, if_neg (by rw [h]; decide)]
    · left
      rw [home_check, if_neg h]
  · by_cases h : v = "qso"
    · right
      rw [swl_check, if_neg (by rw [h]; decide)]
    · left
      rw [qso_check, if_neg h]
  · by_cases h : v = "pse"
    · right
      rw [tnx_check, if_neg (by rw [h]; decide)]
    · left
      rw [pse_check, if_neg h]

/-- C8 (witness): the theorem at the concrete value "qso". -/
theorem at_most_one_marker_checked_witness :
    qso_check "qso" = "$\\square$" ∨ swl_check "qso" = "$\\square$" :=
  (at_most_one_marker_checked "qso").2.1

/-- C2: the seven defaultable fields are spliced into the document
through the `or`-fallback `orDefault` at their template positions (the
background-image argument and the three logo scale/file pairs); the
fallback substitutes the fixed literal default exactly when the stored
value is empty and passes a non-empty value through verbatim.  All other
fields (here the six contact-row fields) are spliced raw, so an empty
string renders as blank. -/
theorem default_substitution (r : CardRecord) :
    occursIn (segBG1 ++ orDefault (get_field_value r "background_image") "foto_antenas.jpg" ++
       segBG2) (generate_latex_code r)
  ∧ occursIn (segIG ++ orDefault (get_field_value r "logo1_scale") "0.07" ++ segTW ++
       orDefault (get_field_value r "logo1") "logo_ure_negro.png" ++ segCB ++
       segIG ++ orDefault (get_field_value r "logo2_scale") "0.2" ++ segTW ++
       orDefault (get_field_value r "logo2") "qrz_com.png" ++ segCB ++
       segIG ++ orDefault (get_field_value r "logo3_scale") "0.1" ++ segTW ++
       orDefault (get_field_value r "logo3") "lotw.png" ++ segCB) (generate_latex_code r)
  ∧ occursIn (get_field_value r "their_call" ++ segAmp ++ get_field_value r "date" ++ segAmp ++
       get_field_value r "time" ++ segAmp ++ get_field_value r "band" ++ segAmp ++
       get_field_value r "mode" ++ segAmp ++ get_field_value r "report")
       (generate_latex_code r)
  ∧ (∀ v d : String, v = "" → orDefault v d = d)
  ∧ (∀ v d : String, v ≠ "" → orDefault v d = v) := by
  refine ⟨?_, ?_, ?_, ?_, ?_⟩
  · refine ⟨seg00, chainIdent r ++ (midContact r ++ (seg23 ++ (midQth r ++
      (midTrx r ++ (midPower r ++ (postAnt r ++ (midQso r ++ (seg32 ++
      (midPse r ++ (seg34 ++ (midLogos r ++ seg35))))))))))), ?_⟩
    rw [latex_decomp]
    simp only [chainStart, String.append_assoc]
  · refine ⟨chainStart r ++ (chainIdent r ++ (midContact r ++ (seg23 ++ (midQth r ++
      (midTrx r ++ (midPower r ++ (postAnt r ++ (midQso r ++ (seg32 ++
      (midPse r ++ seg34)))))))))), seg35, ?_⟩
    rw [latex_decomp]
    simp only [midLogos, String.append_assoc]
  · refine ⟨chainStart r ++ chainIdent r, seg23 ++ (midQth r ++ (midTrx r ++
      (midPower r ++ (postAnt r ++ (midQso r ++ (seg32 ++ (midPse r ++
      (seg34 ++ (midLogos r ++ seg35))))))))), ?_⟩
    rw [latex_decomp]
    simp only [midContact, String.append_assoc]
  · intro v d hv
    rw [orDefault, if_pos hv]
  · intro v d hv
    rw [orDefault, if_neg hv]

/-- C2 (witness): the fallback on the empty record substitutes the
background default, and a non-empty logo value passes through. -/
theorem default_substitution_witness :
    orDefault "" "foto_antenas.jpg" = "foto_antenas.jpg" ∧
    orDefault "mylogo.png" "logo_ure_negro.png" = "mylogo.png" :=
  ⟨(default_substitution []).2.2.2.1 "" "foto_antenas.jpg" rfl,
   (default_substitution []).2.2.2.2 "mylogo.png" "logo_ure_negro.png" (by decide)⟩

/-- C3: the renderer is deterministic — its output depends only on the
observable field values, so two records that read the same everywhere
(in particular, the same record rendered twice) produce byte-identical
output; the definition consults no other input. -/
theorem render_deterministic (r1 r2 : CardRecord)
    (h : ∀ name, get_field_value r1 name = get_field_value r2 name) :
    generate_latex_code r1 = generate_latex_code r2 := by
  simp only [generate_latex_code, h]

/-- C3 (witness): rendering the empty record twice. -/
theorem render_deterministic_witness :
    generate_latex_code [] = generate_latex_code [] :=
  render_deterministic [] [] (fun _ => rfl)

set_option maxRecDepth 8192 in
/-- C4: rendering is total — a field absent from the record reads as the
empty string, and the renderer produces a (non-empty) document string
for every record, including the record with no fields at all. -/
theorem render_total (r : CardRecord) (name : String) :
    (List.lookup name r = none → get_field_value r name = "")
  ∧ 0 < (generate_latex_code r).length := by
  constructor
  · intro h
    rw [get_field_value, h]
    rfl
  · rw [latex_decomp]
    simp only [chainStart, String.length_append, String.append_assoc]
    have h0 : 0 < seg00.length := by decide
    omega

/-- C4 (witness): the empty record — every field absent — still renders. -/
theorem render_total_witness :
    get_field_value [] "callsign" = "" ∧ 0 < (generate_latex_code []).length :=
  ⟨(render_total [] "callsign").1 rfl, (render_total [] "callsign").2⟩

/-- C5: round trip through persistence.  Importing the exported defaults
into a fresh (empty) store reproduces every allow-listed field exactly
and leaves every non-allow-listed field unset (reading as the empty
string); importing into any store only overwrites fields present in the
mapping, leaving the rest untouched. -/
theorem settings_round_trip (r r' : CardRecord) (f : String) :
    (f ∈ save_fields →
       get_field_value (import_defaults (export_defaults r) []) f = get_field_value r f)
  ∧ (f ∉ save_fields →
       get_field_value (import_defaults (export_defaults r) []) f = "")
  ∧ (f ∉ save_fields →
       get_field_value (import_defaults (export_defaults r) r') f = get_field_value r' f) := by
  have hkeys : (export_defaults r).map Prod.fst = save_fields := rfl
  have hnd : ((export_defaults r).map Prod.fst).Nodup := by
    rw [hkeys]
    decide
  have hks : ∀ p ∈ export_defaults r, p.1 ∈ known_fields := by
    intro p hp
    rw [export_defaults] at hp
    obtain ⟨k, hk, rfl⟩ := List.mem_map.1 hp
    have hsub : ∀ x ∈ save_fields, x ∈ known_fields := by decide
    exact hsub k hk
  have hl0 := lookup_import (export_defaults r) [] f hnd hks
  have hl1 := lookup_import (export_defaults r) r' f hnd hks
  have hexp : List.lookup f (export_defaults r) =
      if f ∈ save_fields then some (get_field_value r f) else none :=
    lookup_map_self save_fields (fun k => get_field_value r k) f
  refine ⟨?_, ?_, ?_⟩
  · intro hf
    rw [get_field_value, hl0, hexp, if_pos hf, Option.or_some]
    rfl
  · intro hf
    rw [get_field_value, hl0, hexp, if_neg hf, Option.none_or]
    rfl
  · intro hf
    rw [get_field_value, hl1, hexp, if_neg hf, Option.none_or]
    rfl

/-- C5 (witness): a record holding one allow-listed field (`callsign`)
and one contact field (`their_call`): the round trip reproduces the
former and leaves the latter unset. -/
theorem settings_round_trip_witness :
    get_field_value (import_defaults
        (export_defaults [("callsign", "K1AB"), ("their_call", "W2XYZ")]) []) "callsign" =
      get_field_value [("callsign", "K1AB"), ("their_call", "W2XYZ")] "callsign"
  ∧ get_field_value (import_defaults
        (export_defaults [("callsign", "K1AB"), ("their_call", "W2XYZ")]) []) "their_call" =
      "" :=
  ⟨(settings_round_trip [("callsign", "K1AB"), ("their_call", "W2XYZ")] [] "callsign").1
     (by decide),
   (settings_round_trip [("callsign", "K1AB"), ("their_call", "W2XYZ")] [] "their_call").2.1
     (by decide)⟩

set_option maxRecDepth 8192 in
/-- C6: when the settings file is absent on first load, loading succeeds
and the fresh form state afterwards reads exactly as the hard-coded
built-in default set: each defaulted field holds its built-in value and
every other field is still unset (empty). -/
theorem load_absent_builtin_defaults (f : String) :
    get_field_value (load_settings_absent []) f =
      (List.lookup f builtin_defaults).getD "" := by
  have hnd : (builtin_defaults.map Prod.fst).Nodup := by decide
  have hks : ∀ p ∈ builtin_defaults, p.1 ∈ entry_fields := by decide
  have h := lookup_insert_fold builtin_defaults [] f hnd hks
  rw [load_settings_absent, get_field_value, h]
  rcases hv : List.lookup f builtin_defaults with _ | v <;> simp [get_field_value]

/-- C7: when the `pdflatex` invocation exceeds its 30-second timeout,
`generate_pdf` does report the distinct timeout status, but the scratch
directory is leaked: the `TimeoutExpired` raised inside the try block
skips the `shutil.rmtree(temp_dir)` of line 801, which only runs on the
non-raising path.  The model shows the directory is created and never
removed on the timeout path, while it is removed on the completed
path. -/
theorem generate_pdf_timeout_leak :
    (generate_pdf RunOutcome.timedOut).2 = "PDF generation timed out"
  ∧ PdfStep.mkdtemp ∈ (generate_pdf RunOutcome.timedOut).1
  ∧ PdfStep.rmtree_tmp ∉ (generate_pdf RunOutcome.timedOut).1
  ∧ PdfStep.rmtree_tmp ∈ (generate_pdf RunOutcome.completed).1 := by
  decide

/-- C9: rendering is read-only with respect to the form state.  Each
field read leaves the record unchanged, and the render path — threaded
through every one of its reads — returns the record it started from
together with the very output of the pure renderer. -/
theorem render_reads_only (r : CardRecord) :
    (∀ name, (get_field_value_st r name).2 = r)
  ∧ (generate_latex_code_st r).2 = r
  ∧ (generate_latex_code_st r).1 = generate_latex_code r :=
  ⟨fun _ => rfl, rfl, rfl⟩

/-- C10: the Power cell splices the literal " W" immediately after the
power field's raw value; with an empty power value the cell still shows
the bare unit. -/
theorem power_unit_suffix (r : CardRecord) :
    occursIn (seg27 ++ get_field_value r "power" ++ segW) (generate_latex_code r)
  ∧ segW = " W"
  ∧ (get_field_value r "power" = "" →
       occursIn (seg27 ++ segW) (generate_latex_code r)) := by
  have hfirst : occursIn (seg27 ++ get_field_value r "power" ++ segW)
      (generate_latex_code r) := by
    refine ⟨chainStart r ++ (chainIdent r ++ (midContact r ++ (seg23 ++ (midQth r ++
      midTrx r)))), postAnt r ++ (midQso r ++ (seg32 ++ (midPse r ++ (seg34 ++
      (midLogos r ++ seg35))))), ?_⟩
    rw [latex_decomp]
    simp only [midPower, String.append_assoc]
  refine ⟨hfirst, rfl, ?_⟩
  intro h
  have h2 := hfirst
  rw [h, String.append_empty] at h2
  exact h2

/-- C10 (witness): the empty record has an empty power field, and its
rendered output still carries the bare " W" unit in the Power cell. -/
theorem power_unit_suffix_witness :
    occursIn (seg27 ++ segW) (generate_latex_code []) :=
  (power_unit_suffix []).2.2 rfl

/-- C6 (witness): the loaded state at the `callsign` field. -/
theorem load_absent_builtin_defaults_witness :
    get_field_value (load_settings_absent []) "callsign" = "EA7HQL" :=
  (load_absent_builtin_defaults "callsign").trans (by decide)

/-- C9 (witness): the threaded render of the empty record returns it
unchanged. -/
theorem render_reads_only_witness :
    (generate_latex_code_st []).2 = [] :=
  (render_reads_only []).2.1
